/-
  Verification of the strategy subsystem of the GXWeb stock platform:
  the backtest engine (backend/strategy/backtest.py), the parameter
  optimizer (backend/strategy/optimizer.py), the risk controller
  (backend/strategy/risk_control.py) and the paper trader
  (backend/strategy/paper_trading.py).

  Modelling conventions:
  - Python floats are modelled as exact rationals; every comparison
    exercised by a theorem below is far from any rounding boundary.
  - Python dicts used as strategy configurations are modelled as
    association lists read through lookup (first match wins), which
    matches dict lookup because keys are unique by construction.
  - Fallible code is modelled in Except String; a raised exception is
    modelled as Except.error with a string naming the Python exception.
  - datetime.now() timestamps are passed in as an explicit argument
    where the result depends on them, and omitted where no claim
    mentions them (the created_at field of result dicts).
-/
import Mathlib

/-- Python int() applied to a float: truncation toward zero. -/
def pyInt (x : ℚ) : ℤ := if 0 ≤ x then ⌊x⌋ else ⌈x⌉

/-- A Python dict with string keys and float values, as an association
list; lookup returns the first matching key. -/
abbrev Dict := List (String × ℚ)

/-- d.get(k, dflt) on a Python dict. -/
def dictGet (d : Dict) (k : String) (dflt : ℚ) : ℚ :=
  match d.lookup k with
  | some v => v
  | none => dflt

/-- The Python merge expression with the overrides dict written second,
so its keys win.  Modelled by putting the overrides first in the
association list, which gives the same lookup function. -/
def mergeDict (base overrides : Dict) : Dict := overrides ++ base

/-- Whether a computation returned normally (no exception). -/
def exceptOk {ε α : Type} : Except ε α → Bool
  | .ok _ => true
  | .error _ => false

/- ===== backend/strategy/backtest.py ===== -/

/-- One bar of price data, a Python dict.  The engine reads the keys
datetime, date, close and Close (capitalised), each possibly absent. -/
structure Bar where
  datetime : Option String
  date : Option String
  close : Option ℚ
  closeCap : Option ℚ
deriving DecidableEq

/-- bar.get("datetime", bar.get("date", "")) at line 91. -/
def barTimestamp (bar : Bar) : String :=
  match bar.datetime with
  | some s => s
  | none => bar.date.getD ""

/-- bar.get("close", bar.get("Close", 0)) at line 92. -/
def barPrice (bar : Bar) : ℚ :=
  match bar.close with
  | some p => p
  | none => bar.closeCap.getD 0

inductive PositionType where
  | long
  | short
  | cash
deriving DecidableEq

/-- The Trade dataclass. -/
structure Trade where
  timestamp : String
  action : String
  price : ℚ
  quantity : ℤ
  commission : ℚ
deriving DecidableEq

/-- The Position dataclass. -/
structure Position where
  symbol : String
  position_type : PositionType
  quantity : ℤ
  entry_price : ℚ
  entry_time : String
  stop_loss : ℚ
  take_profit : ℚ
deriving DecidableEq

/-- One portfolio-value record appended per processed bar. -/
structure Snapshot where
  timestamp : String
  value : ℚ
deriving DecidableEq

/-- The mutable state of a BacktestEngine instance. -/
structure BacktestEngine where
  initial_capital : ℚ
  capital : ℚ
  positions : List Position
  trades : List Trade
  portfolio_value : List Snapshot
deriving DecidableEq

/-- BacktestEngine.__init__. -/
def mkEngine (initial_capital : ℚ) : BacktestEngine :=
  ⟨initial_capital, initial_capital, [], [], []⟩

/-- Lines 84 to 87: state reset at the start of every run_backtest call. -/
def resetEngine (e : BacktestEngine) : BacktestEngine :=
  { e with
    capital := e.initial_capital
    positions := []
    trades := []
    portfolio_value := [] }

/-- _should_entry at lines 126 to 138: always true. -/
def should_entry (_strategy : Dict) (_bar : Bar) : Bool := true

/-- _should_exit at lines 140 to 163.  Reads bar.get("close", 0), with
no capitalised fallback here. -/
def should_exit (_strategy : Dict) (bar : Bar) (position : Position) : Bool :=
  let current_price := bar.close.getD 0
  if 0 < position.stop_loss ∧
      current_price ≤ position.entry_price * (1 - position.stop_loss) then true
  else if 0 < position.take_profit ∧
      position.entry_price * (1 + position.take_profit) ≤ current_price then true
  else false

/-- _entry_position at lines 165 to 213: size at 50 percent of cash,
skip if the floored quantity is not positive. -/
def entry_position (e : BacktestEngine) (symbol : String)
    (position_type : PositionType) (price : ℚ) (timestamp : String)
    (strategy : Dict) : BacktestEngine :=
  let quantity := pyInt (e.capital * (1 / 2) / price)
  if quantity ≤ 0 then e
  else
    { e with
      trades := e.trades ++
        [⟨timestamp, "buy", price, quantity, 0⟩]
      capital := e.capital - price * quantity
      positions := e.positions ++
        [⟨symbol, position_type, quantity, price, timestamp,
          dictGet strategy "stop_loss" (1 / 20),
          dictGet strategy "take_profit" (1 / 10)⟩] }

/-- _exit_position at lines 215 to 239. -/
def exit_position (e : BacktestEngine) (position : Position) (price : ℚ)
    (timestamp : String) : BacktestEngine :=
  { e with
    trades := e.trades ++
      [⟨timestamp, "sell", price, position.quantity, 0⟩]
    capital := e.capital + price * position.quantity
    positions := [] }

/-- _calculate_position_value at lines 241 to 252. -/
def calculate_position_value (position : Position) (current_price : ℚ) : ℚ :=
  position.quantity * current_price

/-- Appending one record to self.portfolio_value (lines 110 to 113). -/
def pushSnapshot (e : BacktestEngine) (timestamp : String) (value : ℚ) :
    BacktestEngine :=
  { e with portfolio_value := e.portfolio_value ++ [⟨timestamp, value⟩] }

/-- The loop state of run_backtest: the engine, the loop-local Python
variable named position (assigned only in the exit branch at line 104,
read at line 109 in every iteration that holds a position), and the
pending exception if one was raised. -/
structure BtState where
  eng : BacktestEngine
  posVar : Option Position
  err : Option String
deriving DecidableEq

/-- Lines 97 to 106: the entry and exit branches of the loop body. -/
def btEntryExit (strategy : Dict) (symbol : String) (s : BtState)
    (bar : Bar) (price : ℚ) (timestamp : String) : BtState :=
  if s.eng.positions.isEmpty then
    if should_entry strategy bar then
      { s with eng := entry_position s.eng symbol PositionType.long price timestamp strategy }
    else s
  else
    match s.eng.positions.head? with
    | none => s
    | some position =>
      if should_exit strategy bar position then
        ⟨exit_position s.eng position price timestamp, some position, s.err⟩
      else
        ⟨s.eng, some position, s.err⟩

/-- Lines 108 to 113: the portfolio snapshot.  When a position is open
this reads the loop-local variable position; if it was never assigned,
Python raises UnboundLocalError. -/
def btSnapshot (s : BtState) (price : ℚ) (timestamp : String) : BtState :=
  if s.eng.positions.isEmpty then
    { s with eng := pushSnapshot s.eng timestamp (s.eng.capital + 0) }
  else
    match s.posVar with
    | none => { s with err := some "UnboundLocalError: position" }
    | some position =>
      { s with eng :=
          pushSnapshot s.eng timestamp (s.eng.capital + calculate_position_value position price) }

/-- One iteration of the bar loop of run_backtest (lines 90 to 113).
A pending exception skips the rest of the loop. -/
def btStep (strategy : Dict) (symbol : String) (s : BtState) (bar : Bar) :
    BtState :=
  match s.err with
  | some _ => s
  | none =>
    let timestamp := barTimestamp bar
    let price := barPrice bar
    if price ≤ 0 then s
    else btSnapshot (btEntryExit strategy symbol s bar price timestamp) price timestamp

/-- A fixed-step Newton iteration. -/
def heronIter : ℕ → ℚ → ℚ → ℚ
  | 0, _, x => x
  | n + 1, q, x => heronIter n q ((x + q / x) / 2)

/-- Rational stand-in for the floating-point square root used by the
Sharpe annualization (252 ** 0.5) and by np.std.  Every theorem in this
file exercises only branches in which the Sharpe ratio is 0, so the
precision of this stand-in is irrelevant to all results below. -/
def fsqrt (q : ℚ) : ℚ := if q ≤ 0 then 0 else heronIter 12 q (q + 1)

/-- _calculate_max_drawdown at lines 286 to 305. -/
def calculate_max_drawdown (pv : List Snapshot) : ℚ :=
  match pv with
  | [] => 0
  | s0 :: _ =>
    (pv.foldl
      (fun acc r =>
        let peak := if acc.1 < r.value then r.value else acc.1
        let dd := if 0 < peak then (peak - r.value) / peak else 0
        (peak, max acc.2 dd))
      (s0.value, 0)).2

/-- _calculate_sharpe_ratio at lines 307 to 332.  np.std is the
population standard deviation; the source tests std == 0, which holds
exactly when the variance is 0. -/
def calculate_sharpe_ratio (pv : List Snapshot) : ℚ :=
  if pv.length < 2 then 0
  else
    let returns := (pv.zip pv.tail).filterMap
      (fun p => if 0 < p.1.value then some ((p.2.value - p.1.value) / p.1.value) else none)
    if returns = [] then 0
    else
      let n : ℚ := returns.length
      let mean := returns.sum / n
      let variance := (returns.map (fun r => (r - mean) ^ 2)).sum / n
      if variance = 0 then 0 else mean / fsqrt variance * fsqrt 252

/-- The metrics dict built by _calculate_metrics. -/
structure Metrics where
  initial_capital : ℚ
  final_value : ℚ
  total_return : ℚ
  total_trades : ℕ
  win_rate : ℚ
  max_drawdown : ℚ
  sharpe_ratio : ℚ
deriving DecidableEq

/-- _calculate_metrics at lines 254 to 284; none models the empty dict
returned when the portfolio curve is empty. -/
def calculate_metrics (e : BacktestEngine) : Option Metrics :=
  match e.portfolio_value.getLast? with
  | none => none
  | some lastSnap =>
    let final_value := lastSnap.value
    let total_trades := e.trades.length
    let winning_trades := (e.trades.filter (fun t => t.action = "sell")).length
    some
      { initial_capital := e.initial_capital
        final_value := final_value
        total_return := (final_value - e.initial_capital) / e.initial_capital
        total_trades := total_trades
        win_rate := if 0 < total_trades then (winning_trades : ℚ) / total_trades else 0
        max_drawdown := calculate_max_drawdown e.portfolio_value
        sharpe_ratio := calculate_sharpe_ratio e.portfolio_value }

/-- The success value of run_backtest.  The created_at wall-clock field
of the returned dict is omitted (no claim mentions it); the metrics
field is total because an empty metrics dict raises before returning. -/
structure BTResult where
  trades : List Trade
  portfolio_value : List Snapshot
  metrics : Metrics
deriving DecidableEq

/-- The body of run_backtest after the state reset: the bar loop, then
the metrics computation.  The completion log line at 118 reads the
final_value key of the metrics dict and raises KeyError when the dict
is empty. -/
def runBacktestFrom (st0 : BacktestEngine) (strategy : Dict)
    (price_data : List Bar) (symbol : String) :
    BacktestEngine × Except String BTResult :=
  let finalSt := price_data.foldl (btStep strategy symbol) ⟨st0, none, none⟩
  match finalSt.err with
  | some e => (finalSt.eng, .error e)
  | none =>
    match calculate_metrics finalSt.eng with
    | none => (finalSt.eng, .error "KeyError: final_value")
    | some m =>
      (finalSt.eng, .ok ⟨finalSt.eng.trades, finalSt.eng.portfolio_value, m⟩)

/-- run_backtest at lines 66 to 124: reset the instance state, then run.
Returns the final instance state together with the result or the raised
exception. -/
def run_backtest (e : BacktestEngine) (strategy : Dict)
    (price_data : List Bar) (symbol : String) :
    BacktestEngine × Except String BTResult :=
  runBacktestFrom (resetEngine e) strategy price_data symbol

/- ===== backend/strategy/optimizer.py ===== -/

/-- Prefixing each tail in tails with each element of l in turn:
the inner structure of the itertools.product enumeration. -/
def cartProdAux {α : Type} (tails : List (List α)) : List α → List (List α)
  | [] => []
  | x :: xs => tails.map (fun t => x :: t) ++ cartProdAux tails xs

/-- list(itertools.product(*param_values)) at line 48: the Cartesian
product of the candidate lists, first list varying slowest. -/
def cartProd {α : Type} : List (List α) → List (List α)
  | [] => [[]]
  | l :: ls => cartProdAux (cartProd ls) l

/-- One entry of the results list built at lines 68 to 72. -/
structure GridEntry where
  params : Dict
  metrics : Metrics
  trades_count : ℕ
deriving DecidableEq

/-- The dict returned by grid_search (created_at omitted). -/
structure GridResult where
  total_combinations : ℕ
  results : List GridEntry
  best : Option GridEntry
deriving DecidableEq

/-- The sort key of _find_best: x["metrics"].get("sharpe_ratio", 0).
The metrics dict of every completed run contains the key. -/
def resultKey (e : GridEntry) : ℚ := e.metrics.sharpe_ratio

/-- Insert x into a list sorted by descending key, after every element
whose key is at least the key of x. -/
def insertDesc {α : Type} (k : α → ℚ) (x : α) : List α → List α
  | [] => [x]
  | y :: ys => if k y < k x then x :: y :: ys else y :: insertDesc k x ys

/-- Python sorted(l, key=k, reverse=True).  Python guarantees a stable
sort; stable insertion (later elements inserted after equal keys)
computes the same list as any stable descending sort. -/
def stableSortDesc {α : Type} (k : α → ℚ) (l : List α) : List α :=
  l.foldl (fun acc x => insertDesc k x acc) []

/-- Modelled from the spec wording for the selection rule: the result
with the highest key, ties broken by encounter order (first maximum
wins).  Used to characterise _find_best. -/
def firstArgmax {α : Type} (k : α → ℚ) : List α → Option α
  | [] => none
  | x :: xs => some (xs.foldl (fun b y => if k b < k y then y else b) x)

/-- _find_best at lines 86 to 106: empty dict for an empty results
list, else the head of the descending stable sort by Sharpe ratio. -/
def find_best (results : List GridEntry) : Option GridEntry :=
  if results.isEmpty then none
  else (stableSortDesc resultKey results).head?

/-- The combination loop of grid_search (lines 54 to 74).  Each
combination builds params = dict(zip(param_names, combo)), merges it
over the base strategy and runs a fresh BacktestEngine() with the
default capital of 100000.  A raised exception propagates.  The log
line at 74 reads the total_return key of the metrics dict; it cannot
raise here because run_backtest already raised whenever its metrics
dict was empty. -/
def gridSearchLoop (strategy : Dict) (price_data : List Bar)
    (symbol : String) (param_names : List String) :
    List (List ℚ) → Except String (List GridEntry)
  | [] => .ok []
  | combo :: rest =>
    let params := param_names.zip combo
    let test_strategy := mergeDict strategy params
    match (run_backtest (mkEngine 100000) test_strategy price_data symbol).2 with
    | .error e => .error e
    | .ok result =>
      match gridSearchLoop strategy price_data symbol param_names rest with
      | .error e => .error e
      | .ok entries =>
        .ok (⟨params, result.metrics, result.trades.length⟩ :: entries)

/-- grid_search at lines 26 to 84 (created_at omitted). -/
def grid_search (strategy : Dict) (price_data : List Bar)
    (param_grid : List (String × List ℚ)) (symbol : String) :
    Except String GridResult :=
  let param_names := param_grid.map Prod.fst
  let param_values := param_grid.map Prod.snd
  let combinations := cartProd param_values
  match gridSearchLoop strategy price_data symbol param_names combinations with
  | .error e => .error e
  | .ok results =>
    .ok
      { total_combinations := combinations.length
        results := results
        best := find_best results }

/- ===== backend/strategy/risk_control.py ===== -/

inductive RiskLevel where
  | low
  | medium
  | high
  | critical
deriving DecidableEq

/-- The rejection reasons of check_risk, standing for the reason
strings built at lines 148, 157, 171 and 179. -/
inductive RiskReason where
  | dailyLossLimit
  | totalLossLimit
  | aggregateExposure
  | singleExposure
deriving DecidableEq

/-- One value of the positions dict of the risk controller and of the
paper trader: a quantity and a weighted-average price. -/
structure PositionEntry where
  quantity : ℤ
  avg_price : ℚ
deriving DecidableEq

/-- The mutable state of a RiskController instance.  The positions
dict is an association list with unique keys in insertion order. -/
structure RiskController where
  max_position_pct : ℚ
  max_daily_loss_pct : ℚ
  max_total_loss_pct : ℚ
  max_drawdown_pct : ℚ
  initial_capital : ℚ
  current_capital : ℚ
  daily_pnl : ℚ
  positions : List (String × PositionEntry)
deriving DecidableEq

/-- RiskController.__init__ at lines 40 to 66: the capitals are
hard-coded to 100000 and the daily pnl to 0. -/
def mkRiskController (max_position_pct max_daily_loss_pct
    max_total_loss_pct max_drawdown_pct : ℚ) : RiskController :=
  { max_position_pct := max_position_pct
    max_daily_loss_pct := max_daily_loss_pct
    max_total_loss_pct := max_total_loss_pct
    max_drawdown_pct := max_drawdown_pct
    initial_capital := 100000
    current_capital := 100000
    daily_pnl := 0
    positions := [] }

/-- Replace the value stored under a key, keeping dict order. -/
def setEntry (l : List (String × PositionEntry)) (k : String)
    (v : PositionEntry) : List (String × PositionEntry) :=
  l.map (fun kv => if kv.1 = k then (k, v) else kv)

/-- del d[k] on a dict with unique keys. -/
def eraseEntry (l : List (String × PositionEntry)) (k : String) :
    List (String × PositionEntry) :=
  l.filter (fun kv => kv.1 != k)

/-- _get_total_exposure at lines 269 to 274.  Each position contributes
quantity times current_capital: the source has no live price and uses
the capital in place of a price (flagged by the TODO at line 266). -/
def get_total_exposure (s : RiskController) : ℚ :=
  (s.positions.map (fun kv => (kv.2.quantity : ℚ) * s.current_capital)).sum

/-- _get_position_value at lines 262 to 267, with the same
quantity-times-capital placeholder. -/
def get_position_value (s : RiskController) (symbol : String) : ℚ :=
  match s.positions.lookup symbol with
  | none => 0
  | some pos => (pos.quantity : ℚ) * s.current_capital

/-- _get_available_capital at lines 257 to 260. -/
def get_available_capital (s : RiskController) : ℚ :=
  max 0 (s.current_capital - get_total_exposure s)

/-- The dict returned by check_risk. -/
structure RiskCheck where
  allowed : Bool
  reason : Option RiskReason
  risk_level : RiskLevel
deriving DecidableEq

/-- check_risk at lines 125 to 186: daily-loss guard, total-loss
guard, aggregate-exposure guard, then per-symbol guard. -/
def check_risk (s : RiskController) (symbol action : String)
    (quantity : ℤ) (price : ℚ) : RiskCheck :=
  if s.daily_pnl < -s.current_capital * s.max_daily_loss_pct then
    ⟨false, some RiskReason.dailyLossLimit, RiskLevel.critical⟩
  else if (s.initial_capital - s.current_capital) / s.initial_capital ≥ s.max_total_loss_pct then
    ⟨false, some RiskReason.totalLossLimit, RiskLevel.critical⟩
  else
    let position_value := get_position_value s symbol
    let total_exposure := get_total_exposure s
    let order_value : ℚ := if action = "buy" then (quantity : ℚ) * price else 0
    if (total_exposure + order_value) / s.current_capital > s.max_position_pct then
      ⟨false, some RiskReason.aggregateExposure, RiskLevel.high⟩
    else if position_value + order_value > s.current_capital * s.max_position_pct then
      ⟨false, some RiskReason.singleExposure, RiskLevel.medium⟩
    else
      ⟨true, none, RiskLevel.low⟩

/-- update_position at lines 188 to 222: a missing symbol is first
inserted with quantity 0 (for every action); a buy recomputes the
weighted-average price; a sell decrements and deletes at zero or
below; any other action leaves the inserted entry in place. -/
def update_position (s : RiskController) (symbol action : String)
    (quantity : ℤ) (price : ℚ) : RiskController :=
  let positions0 :=
    if (s.positions.lookup symbol).isSome then s.positions
    else s.positions ++ [(symbol, ⟨0, 0⟩)]
  let pos := (positions0.lookup symbol).getD ⟨0, 0⟩
  if action = "buy" then
    let total_value := (pos.quantity : ℚ) * pos.avg_price + (quantity : ℚ) * price
    let total_quantity := pos.quantity + quantity
    let avg := if 0 < total_quantity then total_value / (total_quantity : ℚ) else 0
    { s with positions := setEntry positions0 symbol ⟨total_quantity, avg⟩ }
  else if action = "sell" then
    if pos.quantity - quantity ≤ 0 then
      { s with positions := eraseEntry positions0 symbol }
    else
      { s with positions := setEntry positions0 symbol ⟨pos.quantity - quantity, pos.avg_price⟩ }
  else
    { s with positions := positions0 }

/-- The dict returned by calculate_position_size. -/
structure SizeResult where
  symbol : String
  quantity : ℤ
  insufficient : Bool
deriving DecidableEq

/-- calculate_position_size at lines 68 to 123 (read-only; the full
result dict is reduced to the fields no claim goes beyond).  Python
raises ZeroDivisionError for price 0; rational division by zero gives
0 instead, and no theorem below evaluates it at price 0. -/
def calculate_position_size (s : RiskController) (symbol : String)
    (price : ℚ) (risk_per_trade : ℚ) : SizeResult :=
  let available := get_available_capital s
  let risk_amount := s.current_capital * risk_per_trade
  let risk_per_share := price * (1 / 20)
  let quantity :=
    if 0 < risk_per_share then pyInt (risk_amount / risk_per_share)
    else pyInt (available / price)
  let quantity := min quantity (pyInt (s.current_capital * s.max_position_pct / price))
  let quantity := min quantity (pyInt (available / price))
  if quantity ≤ 0 then ⟨symbol, 0, true⟩
  else ⟨symbol, quantity, false⟩

/-- The states a RiskController instance can reach through its public
interface: construction, then any sequence of update_position calls
(the only mutating operation; check_risk, calculate_position_size and
get_risk_report only read the state). -/
inductive RCReachable : RiskController → Prop
  | init (a b c d : ℚ) : RCReachable (mkRiskController a b c d)
  | update (s : RiskController) (symbol action : String) (quantity : ℤ)
      (price : ℚ) : RCReachable s →
      RCReachable (update_position s symbol action quantity price)

/- ===== backend/strategy/paper_trading.py ===== -/

/-- The Order dataclass. -/
structure Order where
  symbol : String
  action : String
  quantity : ℤ
  price : ℚ
  order_type : String
  status : String
  created_at : String
  filled_at : Option String
deriving DecidableEq

/-- The TradeRecord dataclass. -/
structure TradeRecord where
  symbol : String
  action : String
  quantity : ℤ
  price : ℚ
  commission : ℚ
  created_at : String
deriving DecidableEq

/-- The mutable state of a PaperTrader instance (the never-written
trade_history list is omitted). -/
structure PaperTrader where
  initial_capital : ℚ
  cash : ℚ
  positions : List (String × PositionEntry)
  orders : List Order
  trades : List TradeRecord
  rc : RiskController
deriving DecidableEq

/-- The dict returned by submit_order (the order payload of the
accepted case is omitted). -/
structure SubmitResult where
  order_id : String
  status : String
  reason : Option RiskReason
deriving DecidableEq

/-- submit_order at lines 69 to 120: risk check first, rejected orders
are never stored; accepted orders are appended as pending and the id
is order_ followed by the new length of the order list. -/
def submit_order (t : PaperTrader) (symbol action : String)
    (quantity : ℤ) (price : ℚ) (order_type : String) (now : String) :
    PaperTrader × SubmitResult :=
  let risk_check := check_risk t.rc symbol action quantity price
  if risk_check.allowed = false then
    (t, ⟨"", "rejected", risk_check.reason⟩)
  else
    let order : Order := ⟨symbol, action, quantity, price, order_type, "pending", now, none⟩
    let orders := t.orders ++ [order]
    ({ t with orders := orders }, ⟨"order_" ++ toString orders.length, "pending", none⟩)

/-- Split a character list at every occurrence of the separator, the
semantics of str.split with a one-character separator. -/
def splitOnChar (sep : Char) : List Char → List (List Char)
  | [] => [[]]
  | c :: rest =>
    let r := splitOnChar sep rest
    if c = sep then [] :: r
    else
      match r with
      | h :: t => (c :: h) :: t
      | [] => [[c]]

/-- A digit string to a number. -/
def parseNatChars (cs : List Char) : Option ℕ :=
  match cs with
  | [] => none
  | _ =>
    if cs.all (fun c => c.isDigit) then
      some (cs.foldl (fun n c => 10 * n + (c.toNat - 48)) 0)
    else none

/-- Python int() on a token without underscores or inner spaces (the
tokens here come from splitting on the underscore; int() would also
accept surrounding whitespace, which no caller produces). -/
def parseIntChars : List Char → Option ℤ
  | '-' :: cs => (parseNatChars cs).map (fun n => -(n : ℤ))
  | '+' :: cs => (parseNatChars cs).map (fun n => (n : ℤ))
  | cs => (parseNatChars cs).map (fun n => (n : ℤ))

/-- int(order_id.split("_")[1]) - 1 at line 133; none models the
IndexError or ValueError caught by the bare except. -/
def parseOrderIdx (order_id : String) : Option ℤ :=
  match (splitOnChar '_' order_id.toList).get? 1 with
  | none => none
  | some tok => (parseIntChars tok).map (fun n => n - 1)

/-- The dict returned by cancel_order. -/
structure CancelResult where
  status : String
  order_id : String
deriving DecidableEq

/-- cancel_order at lines 122 to 141: parse the index out of the id;
any in-range index has its order marked cancelled with no check of the
current status; a malformed id or an out-of-range index returns a
failed result and changes nothing. -/
def cancel_order (t : PaperTrader) (order_id : String) :
    PaperTrader × CancelResult :=
  match parseOrderIdx order_id with
  | none => (t, ⟨"failed", order_id⟩)
  | some idx =>
    if 0 ≤ idx ∧ idx < t.orders.length then
      match t.orders.get? idx.toNat with
      | some o =>
        ({ t with orders := t.orders.set idx.toNat { o with status := "cancelled" } },
         ⟨"cancelled", order_id⟩)
      | none => (t, ⟨"failed", order_id⟩)
    else (t, ⟨"failed", order_id⟩)

/-- The buy branch of the position update of _fill_order (lines 202 to
212): ensure the entry exists, then recompute the weighted average.
The division at line 211 has no zero guard; a zero total quantity
would raise ZeroDivisionError in Python, and no theorem below
evaluates that case. -/
def ptBuyPositions (positions : List (String × PositionEntry))
    (symbol : String) (quantity : ℤ) (fill_price : ℚ) :
    List (String × PositionEntry) :=
  let positions0 :=
    if (positions.lookup symbol).isSome then positions
    else positions ++ [(symbol, ⟨0, 0⟩)]
  match positions0.lookup symbol with
  | some pos =>
    let total_value := (pos.quantity : ℚ) * pos.avg_price + (quantity : ℚ) * fill_price
    let total_qty := pos.quantity + quantity
    setEntry positions0 symbol ⟨total_qty, total_value / (total_qty : ℚ)⟩
  | none => positions0

/-- The sell branch of the position update of _fill_order (lines 213
to 217). -/
def ptSellPositions (positions : List (String × PositionEntry))
    (symbol : String) (quantity : ℤ) : List (String × PositionEntry) :=
  match positions.lookup symbol with
  | none => positions
  | some pos =>
    if pos.quantity - quantity ≤ 0 then eraseEntry positions symbol
    else setEntry positions symbol ⟨pos.quantity - quantity, pos.avg_price⟩

/-- _fill_order at lines 169 to 222, filling the order at index i:
mark it filled, record the trade, move cash by cost = fill_price times
quantity plus commission (subtracted on a buy, added on a sell),
update the trader positions and mirror the fill into the risk
controller. -/
def fill_order (t : PaperTrader) (i : ℕ) (fill_price : ℚ) (now : String) :
    PaperTrader :=
  match t.orders.get? i with
  | none => t
  | some order =>
    let commission := fill_price * (order.quantity : ℚ) * (3 / 10000)
    let trade : TradeRecord :=
      ⟨order.symbol, order.action, order.quantity, fill_price, commission, now⟩
    let cost := fill_price * (order.quantity : ℚ) + commission
    { t with
      orders := t.orders.set i { order with status := "filled", filled_at := some now }
      trades := t.trades ++ [trade]
      cash := if order.action = "buy" then t.cash - cost else t.cash + cost
      positions :=
        if order.action = "buy" then
          ptBuyPositions t.positions order.symbol order.quantity fill_price
        else ptSellPositions t.positions order.symbol order.quantity
      rc := update_position t.rc order.symbol order.action order.quantity fill_price }

/-- execute_orders at lines 143 to 167: walk the order list in order;
a pending market order always fills, a pending limit order fills when
the current price crosses the limit; fills happen at the current
price, defaulting to the limit price when the symbol has no quote. -/
def execute_orders (t : PaperTrader) (current_prices : List (String × ℚ))
    (now : String) : PaperTrader :=
  (List.range t.orders.length).foldl
    (fun acc i =>
      match acc.orders.get? i with
      | none => acc
      | some order =>
        if order.status ≠ "pending" then acc
        else
          let current_price := (current_prices.lookup order.symbol).getD order.price
          let executed :=
            if order.order_type = "market" then true
            else if order.action = "buy" then current_price ≤ order.price
            else order.price ≤ current_price
          if executed then fill_order acc i current_price now else acc)
    t

/-- Modelled from the spec wording for the aggregate exposure guard:
the total notional exposure of the held positions, quantity times
price per position (the stored average price standing in for the live
price the source lacks).  Used only to exhibit how check_risk
diverges from it. -/
def specTotalNotionalExposure (positions : List (String × PositionEntry)) : ℚ :=
  (positions.map (fun kv => (kv.2.quantity : ℚ) * kv.2.avg_price)).sum

/- ===== Helper lemmas ===== -/

theorem exceptOk_iff {ε α : Type} (x : Except ε α) :
    exceptOk x = true ↔ ∃ a, x = .ok a := by
  cases x <;> simp [exceptOk]

theorem insertDesc_head {α : Type} (k : α → ℚ) (x : α) (l : List α) :
    (insertDesc k x l).head? =
      some (match l.head? with
            | none => x
            | some y => if k y < k x then x else y) := by
  cases l with
  | nil => rfl
  | cons y ys =>
    simp only [insertDesc]
    by_cases h : k y < k x
    · simp [h]
    · simp [h]

theorem sortDesc_head {α : Type} (k : α → ℚ) : ∀ (xs acc : List α),
    (xs.foldl (fun a x => insertDesc k x a) acc).head? =
      xs.foldl
        (fun ob y =>
          match ob with
          | none => some y
          | some b => some (if k b < k y then y else b))
        acc.head? := by
  intro xs
  induction xs with
  | nil => intro acc; rfl
  | cons x xs ih =>
    intro acc
    simp only [List.foldl]
    rw [ih, insertDesc_head]
    cases acc with
    | nil => rfl
    | cons a as => rfl

theorem optfold_some {α : Type} (k : α → ℚ) : ∀ (xs : List α) (b : α),
    xs.foldl
        (fun ob y =>
          match ob with
          | none => some y
          | some b => some (if k b < k y then y else b))
        (some b) =
      some (xs.foldl (fun a y => if k a < k y then y else a) b) := by
  intro xs
  induction xs with
  | nil => intro b; rfl
  | cons x xs ih => intro b; simp only [List.foldl]; rw [ih]

/-- The head of the stable descending sort is the first maximum of the
original list: _find_best realises the spec selection rule. -/
theorem find_best_eq_firstArgmax (results : List GridEntry) :
    find_best results = firstArgmax resultKey results := by
  cases results with
  | nil => rfl
  | cons r rs =>
    show (stableSortDesc resultKey (r :: rs)).head? = _
    unfold stableSortDesc
    rw [sortDesc_head]
    rw [List.foldl_cons]
    dsimp only [List.head?]
    rw [optfold_some]
    rfl

theorem length_cartProdAux {α : Type} (tails : List (List α)) :
    ∀ l : List α, (cartProdAux tails l).length = l.length * tails.length := by
  intro l
  induction l with
  | nil => simp [cartProdAux]
  | cons x xs ih =>
    simp only [cartProdAux, List.length_append, List.length_map, List.length_cons, ih]
    ring

theorem length_cartProd {α : Type} :
    ∀ ls : List (List α), (cartProd ls).length = (ls.map List.length).prod := by
  intro ls
  induction ls with
  | nil => rfl
  | cons l ls ih =>
    simp only [cartProd, length_cartProdAux, List.map_cons, List.prod_cons, ih]

theorem mem_cartProdAux {α : Type} {tails : List (List α)} :
    ∀ {l : List α} {c : List α},
      c ∈ cartProdAux tails l ↔ ∃ x ∈ l, ∃ t ∈ tails, c = x :: t := by
  intro l
  induction l with
  | nil => simp [cartProdAux]
  | cons x xs ih =>
    intro c
    simp only [cartProdAux, List.mem_append, List.mem_map, ih, List.mem_cons]
    constructor
    · rintro (⟨t, ht, rfl⟩ | ⟨y, hy, t, ht, rfl⟩)
      · exact ⟨x, Or.inl rfl, t, ht, rfl⟩
      · exact ⟨y, Or.inr hy, t, ht, rfl⟩
    · rintro ⟨y, hy | hy, t, ht, rfl⟩
      · exact Or.inl ⟨t, ht, by rw [hy]⟩
      · exact Or.inr ⟨y, hy, t, ht, rfl⟩

/-- Membership in the enumerated product is exactly componentwise
membership in the candidate lists. -/
theorem mem_cartProd {α : Type} :
    ∀ {ls : List (List α)} {c : List α},
      c ∈ cartProd ls ↔ List.Forall₂ (fun v l => v ∈ l) c ls := by
  intro ls
  induction ls with
  | nil =>
    intro c
    simp only [cartProd, List.mem_singleton, List.forall₂_nil_right_iff]
  | cons l ls ih =>
    intro c
    simp only [cartProd, mem_cartProdAux, List.forall₂_cons_right_iff]
    constructor
    · rintro ⟨x, hx, t, ht, rfl⟩
      exact ⟨x, t, hx, ih.mp ht, rfl⟩
    · rintro ⟨x, t, hx, ht, rfl⟩
      exact ⟨x, hx, t, ih.mpr ht, rfl⟩

theorem length_of_mem_cartProd {α : Type} {ls : List (List α)} {c : List α}
    (h : c ∈ cartProd ls) : c.length = ls.length :=
  (mem_cartProd.mp h).length_eq

theorem nodup_cartProdAux {α : Type} {tails : List (List α)}
    (htails : tails.Nodup) :
    ∀ {l : List α}, l.Nodup → (cartProdAux tails l).Nodup := by
  intro l
  induction l with
  | nil => intro _; exact List.nodup_nil
  | cons x xs ih =>
    intro hl
    rw [List.nodup_cons] at hl
    simp only [cartProdAux]
    apply List.Nodup.append
    · exact htails.map (fun t t2 h => by injection h)
    · exact ih hl.2
    · intro c hc1 hc2
      obtain ⟨t, _, rfl⟩ := List.mem_map.mp hc1
      obtain ⟨y, hy, t2, _, heq⟩ := mem_cartProdAux.mp hc2
      injection heq with h1 h2
      exact hl.1 (h1 ▸ hy)

/-- Duplicate-free candidate lists give a duplicate-free enumeration. -/
theorem nodup_cartProd {α : Type} :
    ∀ {ls : List (List α)}, (∀ l ∈ ls, l.Nodup) → (cartProd ls).Nodup := by
  intro ls
  induction ls with
  | nil => intro _; simp [cartProd]
  | cons l ls ih =>
    intro h
    exact nodup_cartProdAux (ih fun m hm => h m (List.mem_cons_of_mem l hm))
      (h l (List.mem_cons_self l ls))

theorem cartProd_ne_nil {α : Type} {ls : List (List α)}
    (h : ∀ l ∈ ls, l ≠ []) : cartProd ls ≠ [] := by
  have hlen : 0 < (cartProd ls).length := by
    rw [length_cartProd]
    apply List.prod_pos
    intro a ha
    obtain ⟨l, hl, rfl⟩ := List.mem_map.mp ha
    exact List.length_pos.mpr (h l hl)
  exact List.ne_nil_of_length_pos hlen

theorem entry_position_initial (e : BacktestEngine) (symbol : String)
    (pt : PositionType) (price : ℚ) (ts : String) (strategy : Dict) :
    (entry_position e symbol pt price ts strategy).initial_capital = e.initial_capital := by
  unfold entry_position
  dsimp only
  split <;> rfl

theorem btEntryExit_initial (strategy : Dict) (symbol : String) (s : BtState)
    (bar : Bar) (price : ℚ) (ts : String) :
    (btEntryExit strategy symbol s bar price ts).eng.initial_capital =
      s.eng.initial_capital := by
  unfold btEntryExit
  split
  · split
    · exact entry_position_initial s.eng symbol PositionType.long price ts strategy
    · rfl
  · split
    · rfl
    · split <;> rfl

theorem btSnapshot_initial (s : BtState) (price : ℚ) (ts : String) :
    (btSnapshot s price ts).eng.initial_capital = s.eng.initial_capital := by
  unfold btSnapshot
  split
  · rfl
  · split <;> rfl

theorem btStep_initial (strategy : Dict) (symbol : String) (s : BtState)
    (bar : Bar) :
    (btStep strategy symbol s bar).eng.initial_capital = s.eng.initial_capital := by
  unfold btStep
  split
  · rfl
  · dsimp only
    split
    · rfl
    · rw [btSnapshot_initial, btEntryExit_initial]

theorem foldl_btStep_initial (strategy : Dict) (symbol : String) :
    ∀ (data : List Bar) (s : BtState),
      ((data.foldl (btStep strategy symbol) s).eng.initial_capital =
        s.eng.initial_capital) := by
  intro data
  induction data with
  | nil => intro s; rfl
  | cons bar rest ih =>
    intro s
    rw [List.foldl_cons, ih, btStep_initial]

/-- run_backtest never changes the initial capital of the engine, so
sequential runs on one instance all start from the same reset state. -/
theorem run_backtest_initial (e : BacktestEngine) (strategy : Dict)
    (data : List Bar) (symbol : String) :
    (run_backtest e strategy data symbol).1.initial_capital = e.initial_capital := by
  unfold run_backtest runBacktestFrom
  have hfold := foldl_btStep_initial strategy symbol data ⟨resetEngine e, none, none⟩
  dsimp only
  split
  · exact hfold
  · split <;> exact hfold

/-- On an empty bar series the loop never runs, the metrics dict is
empty, and the completion log line raises KeyError reading its
final_value key. -/
theorem run_backtest_nil (e : BacktestEngine) (strategy : Dict) (symbol : String) :
    (run_backtest e strategy [] symbol).2 = Except.error "KeyError: final_value" := rfl

theorem update_position_current_capital (s : RiskController)
    (symbol action : String) (quantity : ℤ) (price : ℚ) :
    (update_position s symbol action quantity price).current_capital =
      s.current_capital := by
  unfold update_position
  dsimp only
  split <;> split <;> first | (split <;> rfl) | rfl | (split <;> split <;> rfl)

theorem update_position_initial_capital (s : RiskController)
    (symbol action : String) (quantity : ℤ) (price : ℚ) :
    (update_position s symbol action quantity price).initial_capital =
      s.initial_capital := by
  unfold update_position
  dsimp only
  split <;> split <;> first | (split <;> rfl) | rfl | (split <;> split <;> rfl)

theorem update_position_daily_pnl (s : RiskController)
    (symbol action : String) (quantity : ℤ) (price : ℚ) :
    (update_position s symbol action quantity price).daily_pnl = s.daily_pnl := by
  unfold update_position
  dsimp only
  split <;> split <;> first | (split <;> rfl) | rfl | (split <;> split <;> rfl)

/-- Every reachable risk-controller state keeps the constructor
capitals and the zero daily pnl. -/
theorem rcReachable_invariant {s : RiskController} (h : RCReachable s) :
    s.initial_capital = 100000 ∧ s.current_capital = 100000 ∧ s.daily_pnl = 0 := by
  induction h with
  | init a b c d => exact ⟨rfl, rfl, rfl⟩
  | update s symbol action quantity price _ ih =>
    refine ⟨?_, ?_, ?_⟩
    · rw [update_position_initial_capital]; exact ih.1
    · rw [update_position_current_capital]; exact ih.2.1
    · rw [update_position_daily_pnl]; exact ih.2.2

theorem gridSearchLoop_ok (strategy : Dict) (data : List Bar)
    (symbol : String) (names : List String) :
    ∀ combos : List (List ℚ),
      (∀ c ∈ combos,
        exceptOk (run_backtest (mkEngine 100000)
          (mergeDict strategy (names.zip c)) data symbol).2 = true) →
      ∃ l, gridSearchLoop strategy data symbol names combos = .ok l ∧
        l.map (fun e => e.params) = combos.map (fun c => names.zip c) := by
  intro combos
  induction combos with
  | nil => intro _; exact ⟨[], rfl, rfl⟩
  | cons c cs ih =>
    intro h
    obtain ⟨r, hr⟩ := (exceptOk_iff _).mp (h c (List.mem_cons_self c cs))
    obtain ⟨l, hl, hmap⟩ := ih (fun c2 hc2 => h c2 (List.mem_cons_of_mem c hc2))
    refine ⟨(⟨names.zip c, r.metrics, r.trades.length⟩ : GridEntry) :: l, ?_, ?_⟩
    · simp only [gridSearchLoop]
      rw [hr]
      dsimp only
      rw [hl]
    · simp only [List.map_cons, hmap]

/- ===== Claim theorems ===== -/

/-- Claim C1: the spec scenario says run_backtest with capital 100000 on
closes [100, 100, 94] and stop_loss 0.05 / take_profit 0.10 returns two
trades (buy 500 at 100, sell 500 at 94), cash 97000 and total_return
-0.03.  The code instead raises UnboundLocalError on the first bar: the
entry branch opens the position and the snapshot line then reads the
loop-local variable named position, which only the exit branch assigns.
This theorem evaluates the code at exactly the claimed input. -/
theorem backtest_stop_loss_scenario_raises :
    (run_backtest (mkEngine 100000)
      [("stop_loss", 1 / 20), ("take_profit", 1 / 10)]
      [⟨some "d1", none, some 100, none⟩, ⟨some "d2", none, some 100, none⟩,
       ⟨some "d3", none, some 94, none⟩] "SH600000").2 =
      Except.error "UnboundLocalError: position" := by
  with_unfolding_all rfl

/-- Claim C2: the claim says run_backtest on an empty bar series returns
empty trades, an empty curve and empty metrics without raising.  The
loop indeed never runs and the metrics dict is empty, but the completion
log line then reads the final_value key of that empty dict, so the call
raises KeyError for every strategy, engine state and symbol. -/
theorem run_backtest_empty_series_raises (e : BacktestEngine)
    (strategy : Dict) (symbol : String) :
    (run_backtest e strategy [] symbol).2 =
      Except.error "KeyError: final_value" := rfl

/-- Claim C5: the claim says check_risk rejects a buy exactly when total
notional exposure plus the order value exceeds max_position_pct of the
current capital.  The code computes exposure as quantity times
current_capital instead of quantity times price (the TODO at line 266
marks the missing live price), so after one single share is bought at
price 100 the recorded exposure is already 100000 and a buy worth 2000
is rejected even though its notional exposure of 100 + 2000 = 2100 is
far below the 25000 limit.  The spec scenario state (exposure 24000
at capital 100000) is not even reachable, since every held share
contributes 100000. -/
theorem check_risk_exposure_formula_bug :
    (check_risk (update_position (mkRiskController (1 / 4) (1 / 20) (1 / 5) (3 / 20))
        "A" "buy" 1 100) "A" "buy" 20 100).allowed = false ∧
    (check_risk (update_position (mkRiskController (1 / 4) (1 / 20) (1 / 5) (3 / 20))
        "A" "buy" 1 100) "A" "buy" 20 100).reason = some RiskReason.aggregateExposure ∧
    get_total_exposure (update_position (mkRiskController (1 / 4) (1 / 20) (1 / 5) (3 / 20))
        "A" "buy" 1 100) = 100000 ∧
    specTotalNotionalExposure (update_position (mkRiskController (1 / 4) (1 / 20) (1 / 5) (3 / 20))
        "A" "buy" 1 100).positions = 100 ∧
    specTotalNotionalExposure (update_position (mkRiskController (1 / 4) (1 / 20) (1 / 5) (3 / 20))
        "A" "buy" 1 100).positions + 20 * 100 ≤ (1 / 4) * 100000 := by
  refine ⟨?_, ?_, ?_, ?_, ?_⟩
  · with_unfolding_all rfl
  · with_unfolding_all rfl
  · with_unfolding_all rfl
  · with_unfolding_all rfl
  · with_unfolding_all decide

set_option maxRecDepth 8000 in
/-- Claim C6: the claim says commission is fill_price times quantity
times 0.0003, a buy debits price times quantity plus commission and a
sell credits price times quantity minus commission.  The commission
formula and the buy debit hold, but the sell branch reuses the buy cost
and credits price times quantity PLUS commission: selling 100 shares at
100 (commission 3) credits 10003, leaving cash 110003 instead of the
claimed 109997. -/
theorem fill_order_sell_commission_bug :
    ((fill_order (⟨100000, 100000, [("A", ⟨200, 100⟩)],
        [⟨"A", "sell", 100, 100, "limit", "pending", "t0", none⟩], [],
        mkRiskController (1 / 4) (1 / 20) (1 / 5) (3 / 20)⟩ : PaperTrader)
        0 100 "t1").trades = [⟨"A", "sell", 100, 100, 3, "t1"⟩] ∧
      (fill_order (⟨100000, 100000, [("A", ⟨200, 100⟩)],
        [⟨"A", "sell", 100, 100, "limit", "pending", "t0", none⟩], [],
        mkRiskController (1 / 4) (1 / 20) (1 / 5) (3 / 20)⟩ : PaperTrader)
        0 100 "t1").cash = 110003) ∧
    ((fill_order (⟨100000, 100000, [],
        [⟨"A", "buy", 100, 100, "limit", "pending", "t0", none⟩], [],
        mkRiskController (1 / 4) (1 / 20) (1 / 5) (3 / 20)⟩ : PaperTrader)
        0 100 "t1").trades = [⟨"A", "buy", 100, 100, 3, "t1"⟩] ∧
      (fill_order (⟨100000, 100000, [],
        [⟨"A", "buy", 100, 100, "limit", "pending", "t0", none⟩], [],
        mkRiskController (1 / 4) (1 / 20) (1 / 5) (3 / 20)⟩ : PaperTrader)
        0 100 "t1").cash = 89997) := by
  refine ⟨⟨?_, ?_⟩, ?_, ?_⟩ <;> with_unfolding_all rfl

set_option maxRecDepth 8000 in
/-- Claim C7 counterexample: check_risk never reads the paper trader
cash, and the risk controller capital is hard-coded to 100000, so on a
trader started with capital 10 a buy of 100 shares at 100 is approved
(exposure 10000 is within 25 percent of 100000) and its fill leaves
cash at -9993, refuting the claim that risk-approved orders keep cash
non-negative. -/
theorem approved_buy_drives_cash_negative :
    (check_risk (mkRiskController (1 / 4) (1 / 20) (1 / 5) (3 / 20))
        "A" "buy" 100 100).allowed = true ∧
    (execute_orders
        (submit_order
          (⟨10, 10, [], [], [], mkRiskController (1 / 4) (1 / 20) (1 / 5) (3 / 20)⟩ :
            PaperTrader)
          "A" "buy" 100 100 "limit" "t1").1
        [("A", 100)] "t2").cash = -9993 := by
  refine ⟨?_, ?_⟩
  · with_unfolding_all rfl
  · with_unfolding_all rfl

/-- Claim C7 amended: executing a fill never modifies the risk
controller current_capital, so that figure stays non-negative whenever
it started non-negative (in particular for risk-approved orders); the
trader cash, by contrast, can be driven negative by an approved buy
because check_risk never inspects it (see the counterexample). -/
theorem fill_preserves_risk_capital (t : PaperTrader) (i : ℕ)
    (fill_price : ℚ) (now : String) (h : 0 ≤ t.rc.current_capital) :
    (fill_order t i fill_price now).rc.current_capital = t.rc.current_capital ∧
    0 ≤ (fill_order t i fill_price now).rc.current_capital := by
  have hpres : (fill_order t i fill_price now).rc.current_capital =
      t.rc.current_capital := by
    unfold fill_order
    split
    · rfl
    · exact update_position_current_capital t.rc _ _ _ _
  exact ⟨hpres, hpres ▸ h⟩

/-- Witness for the amended claim C7 at a concrete fill. -/
theorem fill_preserves_risk_capital_witness :
    (fill_order
        (⟨100000, 100000, [],
          [⟨"A", "buy", 10, 100, "limit", "pending", "t0", none⟩], [],
          mkRiskController (1 / 4) (1 / 20) (1 / 5) (3 / 20)⟩ : PaperTrader)
        0 100 "t1").rc.current_capital =
      (⟨100000, 100000, [],
          [⟨"A", "buy", 10, 100, "limit", "pending", "t0", none⟩], [],
          mkRiskController (1 / 4) (1 / 20) (1 / 5) (3 / 20)⟩ :
        PaperTrader).rc.current_capital ∧
    0 ≤ (fill_order
        (⟨100000, 100000, [],
          [⟨"A", "buy", 10, 100, "limit", "pending", "t0", none⟩], [],
          mkRiskController (1 / 4) (1 / 20) (1 / 5) (3 / 20)⟩ : PaperTrader)
        0 100 "t1").rc.current_capital :=
  fill_preserves_risk_capital
    (⟨100000, 100000, [],
      [⟨"A", "buy", 10, 100, "limit", "pending", "t0", none⟩], [],
      mkRiskController (1 / 4) (1 / 20) (1 / 5) (3 / 20)⟩ : PaperTrader)
    0 100 "t1" (by with_unfolding_all decide)

set_option maxRecDepth 8000 in
/-- Claim C8 counterexample: cancel_order on an order whose status is
filled still marks it cancelled and reports success, refuting the claim
that it only succeeds on pending orders and fails without change
otherwise. -/
theorem cancel_filled_order_succeeds :
    (cancel_order
        (⟨100000, 100000, [],
          [⟨"A", "buy", 10, 100, "limit", "filled", "t0", some "tf"⟩], [],
          mkRiskController (1 / 4) (1 / 20) (1 / 5) (3 / 20)⟩ : PaperTrader)
        "order_1").2.status = "cancelled" ∧
    (cancel_order
        (⟨100000, 100000, [],
          [⟨"A", "buy", 10, 100, "limit", "filled", "t0", some "tf"⟩], [],
          mkRiskController (1 / 4) (1 / 20) (1 / 5) (3 / 20)⟩ : PaperTrader)
        "order_1").1.orders =
      [⟨"A", "buy", 10, 100, "limit", "cancelled", "t0", some "tf"⟩] := by
  refine ⟨?_, ?_⟩
  · with_unfolding_all rfl
  · with_unfolding_all rfl

/-- Claim C8 amended: cancel_order marks cancelled any order whose id
parses to an in-range index, whatever its current status (pending,
filled, cancelled or rejected), and returns success; it returns failure
and changes nothing exactly when the id is malformed or the index is
out of range. -/
theorem cancel_order_ignores_status :
    (∀ (t : PaperTrader) (order_id : String) (i : ℤ) (o : Order),
      parseOrderIdx order_id = some i → 0 ≤ i → i < t.orders.length →
      t.orders.get? i.toNat = some o →
      cancel_order t order_id =
        ({ t with orders := t.orders.set i.toNat { o with status := "cancelled" } },
         ⟨"cancelled", order_id⟩)) ∧
    (∀ (t : PaperTrader) (order_id : String),
      parseOrderIdx order_id = none →
      cancel_order t order_id = (t, ⟨"failed", order_id⟩)) ∧
    (∀ (t : PaperTrader) (order_id : String) (i : ℤ),
      parseOrderIdx order_id = some i → ¬(0 ≤ i ∧ i < t.orders.length) →
      cancel_order t order_id = (t, ⟨"failed", order_id⟩)) := by
  refine ⟨?_, ?_, ?_⟩
  · intro t order_id i o hp h0 hlen hget
    unfold cancel_order
    rw [hp]
    dsimp only
    rw [if_pos (And.intro h0 hlen), hget]
  · intro t order_id hp
    unfold cancel_order
    rw [hp]
  · intro t order_id i hp hni
    unfold cancel_order
    rw [hp]
    dsimp only
    rw [if_neg hni]

/-- Witness for the amended claim C8: a pending order is cancelled via
its id, a malformed id fails, an out-of-range id fails. -/
theorem cancel_order_ignores_status_witness :
    cancel_order
        (⟨100000, 100000, [],
          [⟨"B", "sell", 5, 50, "limit", "pending", "t0", none⟩], [],
          mkRiskController (1 / 4) (1 / 20) (1 / 5) (3 / 20)⟩ : PaperTrader)
        "order_1" =
      (⟨100000, 100000, [],
        [⟨"B", "sell", 5, 50, "limit", "cancelled", "t0", none⟩], [],
        mkRiskController (1 / 4) (1 / 20) (1 / 5) (3 / 20)⟩,
       ⟨"cancelled", "order_1"⟩) ∧
    cancel_order
        (⟨100000, 100000, [],
          [⟨"B", "sell", 5, 50, "limit", "pending", "t0", none⟩], [],
          mkRiskController (1 / 4) (1 / 20) (1 / 5) (3 / 20)⟩ : PaperTrader)
        "nonsense" =
      (⟨100000, 100000, [],
        [⟨"B", "sell", 5, 50, "limit", "pending", "t0", none⟩], [],
        mkRiskController (1 / 4) (1 / 20) (1 / 5) (3 / 20)⟩,
       ⟨"failed", "nonsense"⟩) ∧
    cancel_order
        (⟨100000, 100000, [],
          [⟨"B", "sell", 5, 50, "limit", "pending", "t0", none⟩], [],
          mkRiskController (1 / 4) (1 / 20) (1 / 5) (3 / 20)⟩ : PaperTrader)
        "order_9" =
      (⟨100000, 100000, [],
        [⟨"B", "sell", 5, 50, "limit", "pending", "t0", none⟩], [],
        mkRiskController (1 / 4) (1 / 20) (1 / 5) (3 / 20)⟩,
       ⟨"failed", "order_9"⟩) :=
  ⟨cancel_order_ignores_status.1
      (⟨100000, 100000, [],
        [⟨"B", "sell", 5, 50, "limit", "pending", "t0", none⟩], [],
        mkRiskController (1 / 4) (1 / 20) (1 / 5) (3 / 20)⟩ : PaperTrader)
      "order_1" 0 ⟨"B", "sell", 5, 50, "limit", "pending", "t0", none⟩
      (by decide) (by decide) (by decide) rfl,
    cancel_order_ignores_status.2.1
      (⟨100000, 100000, [],
        [⟨"B", "sell", 5, 50, "limit", "pending", "t0", none⟩], [],
        mkRiskController (1 / 4) (1 / 20) (1 / 5) (3 / 20)⟩ : PaperTrader)
      "nonsense" (by decide),
    cancel_order_ignores_status.2.2
      (⟨100000, 100000, [],
        [⟨"B", "sell", 5, 50, "limit", "pending", "t0", none⟩], [],
        mkRiskController (1 / 4) (1 / 20) (1 / 5) (3 / 20)⟩ : PaperTrader)
      "order_9" 8 (by decide) (by decide)⟩

/-- Claim C9: run_backtest is deterministic: it resets all mutable
engine state from initial_capital before the loop, so any two engines
with equal initial capital (fresh, or dirty from earlier sequential
runs) produce identical results, including identical trade logs and
metrics; and the initial capital itself is never changed by a run, so
sequential reuse of one instance is safe. -/
theorem run_backtest_deterministic (e1 e2 : BacktestEngine)
    (strategy : Dict) (data : List Bar) (symbol : String)
    (h : e1.initial_capital = e2.initial_capital) :
    run_backtest e1 strategy data symbol = run_backtest e2 strategy data symbol ∧
    (run_backtest e1 strategy data symbol).1.initial_capital = e1.initial_capital := by
  constructor
  · have hr : resetEngine e1 = resetEngine e2 := by
      show (⟨e1.initial_capital, e1.initial_capital, [], [], []⟩ : BacktestEngine) =
        ⟨e2.initial_capital, e2.initial_capital, [], [], []⟩
      rw [h]
    unfold run_backtest
    rw [hr]
  · exact run_backtest_initial e1 strategy data symbol

/-- Witness for claim C9: a fresh engine and a dirty engine with the
same initial capital give the same run. -/
theorem run_backtest_deterministic_witness :
    run_backtest (mkEngine 100000) [] [⟨none, none, some 60000, none⟩] "S" =
      run_backtest
        (⟨100000, 55, [⟨"X", PositionType.long, 7, 3, "t", 0, 0⟩],
          [⟨"t", "buy", 1, 1, 0⟩], [⟨"t", 42⟩]⟩ : BacktestEngine)
        [] [⟨none, none, some 60000, none⟩] "S" ∧
    (run_backtest (mkEngine 100000) [] [⟨none, none, some 60000, none⟩] "S").1.initial_capital =
      (mkEngine 100000).initial_capital :=
  run_backtest_deterministic (mkEngine 100000)
    (⟨100000, 55, [⟨"X", PositionType.long, 7, 3, "t", 0, 0⟩],
      [⟨"t", "buy", 1, 1, 0⟩], [⟨"t", 42⟩]⟩ : BacktestEngine)
    [] [⟨none, none, some 60000, none⟩] "S" rfl

/-- Claim C10 counterexample: the claim says the daily-loss and
total-loss guards can never reject.  The capital fields indeed never
change, but the loss limits are constructor parameters: constructed
with max_total_loss_pct = 0, the total-loss guard compares 0 with 0 and
rejects every order at once. -/
theorem total_loss_guard_fires_at_zero_limit :
    (check_risk (mkRiskController (1 / 4) (1 / 20) 0 (3 / 20))
        "A" "buy" 1 1).allowed = false ∧
    (check_risk (mkRiskController (1 / 4) (1 / 20) 0 (3 / 20))
        "A" "buy" 1 1).reason = some RiskReason.totalLossLimit := by
  refine ⟨?_, ?_⟩
  · with_unfolding_all rfl
  · with_unfolding_all rfl

/-- Claim C10 amended: no RiskController operation modifies
current_capital, initial_capital or daily_pnl (update_position, the
only mutator, preserves all three in every state; check_risk,
calculate_position_size and get_risk_report are read-only functions of
the state), and in every reachable state whose configured loss limits
satisfy 0 less-or-equal max_daily_loss_pct and 0 less-than
max_total_loss_pct (true of the defaults 0.05 and 0.20), the daily-loss
and total-loss guards never produce the rejection. -/
theorem risk_capital_fields_frozen (s : RiskController) :
    (∀ (symbol action : String) (quantity : ℤ) (price : ℚ),
      (update_position s symbol action quantity price).current_capital = s.current_capital ∧
      (update_position s symbol action quantity price).initial_capital = s.initial_capital ∧
      (update_position s symbol action quantity price).daily_pnl = s.daily_pnl) ∧
    (RCReachable s → 0 ≤ s.max_daily_loss_pct → 0 < s.max_total_loss_pct →
      ∀ (symbol action : String) (quantity : ℤ) (price : ℚ),
        (check_risk s symbol action quantity price).reason ≠ some RiskReason.dailyLossLimit ∧
        (check_risk s symbol action quantity price).reason ≠ some RiskReason.totalLossLimit) := by
  constructor
  · intro symbol action quantity price
    exact ⟨update_position_current_capital s symbol action quantity price,
      update_position_initial_capital s symbol action quantity price,
      update_position_daily_pnl s symbol action quantity price⟩
  · intro hs hd ht symbol action quantity price
    obtain ⟨hic, hcc, hdp⟩ := rcReachable_invariant hs
    unfold check_risk
    rw [hic, hcc, hdp]
    split
    · next hcond =>
      exfalso
      have hmul : (0 : ℚ) ≤ 100000 * s.max_daily_loss_pct :=
        mul_nonneg (by norm_num) hd
      rw [neg_mul] at hcond
      linarith
    · split
      · next hcond =>
        exfalso
        norm_num at hcond
        linarith
      · dsimp only
        repeat' split
        all_goals exact ⟨by decide, by decide⟩

/-- Witness for the amended claim C10 at a reachable state built by one
buy fill from the default construction. -/
theorem risk_capital_fields_frozen_witness :
    ((update_position
        (update_position (mkRiskController (1 / 4) (1 / 20) (1 / 5) (3 / 20)) "A" "buy" 1 100)
        "A" "sell" 1 100).current_capital =
      (update_position (mkRiskController (1 / 4) (1 / 20) (1 / 5) (3 / 20)) "A" "buy" 1 100).current_capital ∧
      (update_position
        (update_position (mkRiskController (1 / 4) (1 / 20) (1 / 5) (3 / 20)) "A" "buy" 1 100)
        "A" "sell" 1 100).initial_capital =
      (update_position (mkRiskController (1 / 4) (1 / 20) (1 / 5) (3 / 20)) "A" "buy" 1 100).initial_capital ∧
      (update_position
        (update_position (mkRiskController (1 / 4) (1 / 20) (1 / 5) (3 / 20)) "A" "buy" 1 100)
        "A" "sell" 1 100).daily_pnl =
      (update_position (mkRiskController (1 / 4) (1 / 20) (1 / 5) (3 / 20)) "A" "buy" 1 100).daily_pnl) ∧
    ((check_risk (update_position (mkRiskController (1 / 4) (1 / 20) (1 / 5) (3 / 20)) "A" "buy" 1 100)
        "A" "buy" 1 1).reason ≠ some RiskReason.dailyLossLimit ∧
      (check_risk (update_position (mkRiskController (1 / 4) (1 / 20) (1 / 5) (3 / 20)) "A" "buy" 1 100)
        "A" "buy" 1 1).reason ≠ some RiskReason.totalLossLimit) :=
  ⟨(risk_capital_fields_frozen
      (update_position (mkRiskController (1 / 4) (1 / 20) (1 / 5) (3 / 20)) "A" "buy" 1 100)).1
      "A" "sell" 1 100,
    (risk_capital_fields_frozen
      (update_position (mkRiskController (1 / 4) (1 / 20) (1 / 5) (3 / 20)) "A" "buy" 1 100)).2
      (RCReachable.update (mkRiskController (1 / 4) (1 / 20) (1 / 5) (3 / 20)) "A" "buy" 1 100
        (RCReachable.init (1 / 4) (1 / 20) (1 / 5) (3 / 20)))
      (by with_unfolding_all decide) (by with_unfolding_all decide)
      "A" "buy" 1 1⟩

set_option maxRecDepth 8000 in
/-- Claim C3 counterexample: on ordinary price data every backtest run
crashes with the unbound-local bug of the engine, so grid_search with a
two-value grid raises instead of running two backtests and returning a
best result. -/
theorem grid_search_crashes_on_entry_data :
    grid_search [] [⟨none, none, some 100, none⟩]
        [("stop_loss", [1 / 20, 1 / 10])] "SH600000" =
      Except.error "UnboundLocalError: position" := by
  with_unfolding_all rfl

/-- Claim C3 amended: provided every enumerated combination completes
its backtest without an exception, grid_search runs exactly
n1 times ... times nk backtests, one per element of the Cartesian
product of the candidate lists (each exactly once when the lists are
duplicate-free), and the returned best is the result with the highest
sharpe_ratio, ties broken in favour of the earliest-enumerated
combination (firstArgmax realises that spec selection rule). -/
theorem grid_search_exhaustive_when_runs_complete (strategy : Dict)
    (data : List Bar) (symbol : String) (grid : List (String × List ℚ))
    (hok : ∀ c ∈ cartProd (grid.map Prod.snd),
      exceptOk (run_backtest (mkEngine 100000)
        (mergeDict strategy ((grid.map Prod.fst).zip c)) data symbol).2 = true) :
    ∃ gr, grid_search strategy data grid symbol = .ok gr ∧
      gr.total_combinations = (grid.map (fun p => p.2.length)).prod ∧
      gr.results.length = (grid.map (fun p => p.2.length)).prod ∧
      gr.results.map (fun r => r.params) =
        (cartProd (grid.map Prod.snd)).map (fun c => (grid.map Prod.fst).zip c) ∧
      (∀ c : List ℚ, c ∈ cartProd (grid.map Prod.snd) ↔
        List.Forall₂ (fun v l => v ∈ l) c (grid.map Prod.snd)) ∧
      ((∀ p ∈ grid, p.2.Nodup) → (gr.results.map (fun r => r.params)).Nodup) ∧
      gr.best = firstArgmax resultKey gr.results := by
  obtain ⟨l, hl, hmap⟩ := gridSearchLoop_ok strategy data symbol
    (grid.map Prod.fst) (cartProd (grid.map Prod.snd)) hok
  have hlenl : l.length = (grid.map (fun p => p.2.length)).prod := by
    have := congrArg List.length hmap
    simp only [List.length_map] at this
    rw [this, length_cartProd, List.map_map]
    rfl
  refine ⟨⟨(cartProd (grid.map Prod.snd)).length, l, find_best l⟩, ?_, ?_, ?_, ?_, ?_, ?_, ?_⟩
  · unfold grid_search
    dsimp only
    rw [hl]
  · show (cartProd (grid.map Prod.snd)).length = _
    rw [length_cartProd, List.map_map]
    rfl
  · exact hlenl
  · exact hmap
  · intro c
    exact mem_cartProd
  · intro hnd
    show (l.map (fun r => r.params)).Nodup
    rw [hmap]
    have hnames : (grid.map Prod.fst).length = grid.length := List.length_map grid Prod.fst
    apply List.Nodup.map_on
    · intro c1 hc1 c2 hc2 heq
      have h1 : c1.length = grid.length := by
        rw [length_of_mem_cartProd hc1, List.length_map]
      have h2 : c2.length = grid.length := by
        rw [length_of_mem_cartProd hc2, List.length_map]
      have e1 : ((grid.map Prod.fst).zip c1).map Prod.snd = c1 :=
        List.map_snd_zip _ _ (by rw [h1, hnames])
      have e2 : ((grid.map Prod.fst).zip c2).map Prod.snd = c2 :=
        List.map_snd_zip _ _ (by rw [h2, hnames])
      rw [← e1, ← e2, heq]
    · apply nodup_cartProd
      intro m hm
      obtain ⟨p, hp, rfl⟩ := List.mem_map.mp hm
      exact hnd p hp
  · show find_best l = _
    exact find_best_eq_firstArgmax l

set_option maxRecDepth 8000 in
/-- Witness for the amended claim C3: a two-value stop_loss grid on a
one-bar series whose price exceeds half the capital (so the engine
never enters a position and never hits its unbound-local bug). -/
theorem grid_search_exhaustive_witness :
    ∃ gr, grid_search [] [⟨none, none, some 60000, none⟩]
        [("stop_loss", [1 / 20, 1 / 10])] "SH600000" = .ok gr ∧
      gr.total_combinations =
        ([("stop_loss", [(1 : ℚ) / 20, 1 / 10])].map (fun p => p.2.length)).prod ∧
      gr.results.length =
        ([("stop_loss", [(1 : ℚ) / 20, 1 / 10])].map (fun p => p.2.length)).prod ∧
      gr.results.map (fun r => r.params) =
        (cartProd ([("stop_loss", [(1 : ℚ) / 20, 1 / 10])].map Prod.snd)).map
          (fun c => ([("stop_loss", [(1 : ℚ) / 20, 1 / 10])].map Prod.fst).zip c) ∧
      (∀ c : List ℚ,
        c ∈ cartProd ([("stop_loss", [(1 : ℚ) / 20, 1 / 10])].map Prod.snd) ↔
        List.Forall₂ (fun v l => v ∈ l) c
          ([("stop_loss", [(1 : ℚ) / 20, 1 / 10])].map Prod.snd)) ∧
      ((∀ p ∈ [("stop_loss", [(1 : ℚ) / 20, 1 / 10])], p.2.Nodup) →
        (gr.results.map (fun r => r.params)).Nodup) ∧
      gr.best = firstArgmax resultKey gr.results :=
  grid_search_exhaustive_when_runs_complete [] [⟨none, none, some 60000, none⟩]
    "SH600000" [("stop_loss", [1 / 20, 1 / 10])] (by with_unfolding_all decide)

set_option maxRecDepth 8000 in
/-- Claim C4 counterexample: with an empty param_grid,
itertools.product yields ONE empty combination, so grid_search reports
one tested combination and a non-empty best (the single base-strategy
run), not zero combinations and an empty best as claimed. -/
theorem grid_search_empty_grid_counterexample :
    grid_search [] [⟨none, none, some 60000, none⟩] [] "SH600000" =
      Except.ok ⟨1, [⟨[], ⟨100000, 100000, 0, 0, 0, 0, 0⟩, 0⟩],
        some ⟨[], ⟨100000, 100000, 0, 0, 0, 0, 0⟩, 0⟩⟩ := by
  with_unfolding_all rfl

/-- Claim C4 amended: an empty param_grid yields exactly one (empty)
combination whose single result becomes best; zero combinations with an
empty best happen exactly when some parameter has an empty candidate
list; and an empty bar series makes the underlying backtest raise
KeyError, which propagates out of grid_search instead of a zero-result
return. -/
theorem grid_search_empty_grid_amended :
    (∀ (strategy : Dict) (data : List Bar) (symbol : String),
      exceptOk (run_backtest (mkEngine 100000) strategy data symbol).2 = true →
      ∃ gr, grid_search strategy data [] symbol = .ok gr ∧
        gr.total_combinations = 1 ∧ gr.results.length = 1 ∧ gr.best.isSome = true) ∧
    (∀ (strategy : Dict) (data : List Bar) (name symbol : String),
      grid_search strategy data [(name, ([] : List ℚ))] symbol = .ok ⟨0, [], none⟩) ∧
    (∀ (strategy : Dict) (grid : List (String × List ℚ)) (symbol : String),
      (∀ p ∈ grid, p.2 ≠ ([] : List ℚ)) →
      grid_search strategy ([] : List Bar) grid symbol =
        .error "KeyError: final_value") := by
  refine ⟨?_, ?_, ?_⟩
  · intro strategy data symbol h
    obtain ⟨l, hl, hmap⟩ := gridSearchLoop_ok strategy data symbol
      (List.map Prod.fst ([] : List (String × List ℚ)))
      (cartProd (List.map Prod.snd ([] : List (String × List ℚ))))
      (fun c hc => h)
    have hlen : l.length = 1 := by
      have hc := congrArg List.length hmap
      simp only [List.length_map] at hc
      exact hc
    obtain ⟨e, rfl⟩ := List.length_eq_one.mp hlen
    refine ⟨⟨(cartProd (List.map Prod.snd ([] : List (String × List ℚ)))).length,
      [e], find_best [e]⟩, ?_, rfl, rfl, rfl⟩
    unfold grid_search
    dsimp only
    rw [hl]
  · intro strategy data name symbol
    rfl
  · intro strategy grid symbol hne
    have hcne : cartProd (grid.map Prod.snd) ≠ [] := by
      apply cartProd_ne_nil
      intro m hm
      obtain ⟨p, hp, rfl⟩ := List.mem_map.mp hm
      exact hne p hp
    obtain ⟨c, rest, hcr⟩ := List.exists_cons_of_ne_nil hcne
    unfold grid_search
    dsimp only
    rw [hcr]
    simp only [gridSearchLoop]
    rw [run_backtest_nil]

set_option maxRecDepth 8000 in
/-- Witness for the amended claim C4: a non-crashing one-bar series
with an empty grid, a grid with an empty candidate list, and an empty
series with a non-empty grid. -/
theorem grid_search_empty_grid_amended_witness :
    (∃ gr, grid_search [("take_profit", 1 / 10)]
        [⟨none, none, some 60000, none⟩] [] "S" = .ok gr ∧
      gr.total_combinations = 1 ∧ gr.results.length = 1 ∧ gr.best.isSome = true) ∧
    grid_search [] [⟨none, none, some 60000, none⟩] [("x", ([] : List ℚ))] "S" =
      .ok ⟨0, [], none⟩ ∧
    grid_search [] ([] : List Bar) [("y", [(5 : ℚ)])] "S" =
      .error "KeyError: final_value" :=
  ⟨grid_search_empty_grid_amended.1 [("take_profit", 1 / 10)]
      [⟨none, none, some 60000, none⟩] "S" (by with_unfolding_all decide),
    grid_search_empty_grid_amended.2.1 [] [⟨none, none, some 60000, none⟩] "x" "S",
    grid_search_empty_grid_amended.2.2 [] [("y", [(5 : ℚ)])] "S"
      (by decide)⟩
